import Mathlib

/-!
Verification of the ring-artifact weight-estimation core
(`src/Core/functions_CPU/RingWeights_core.c`).

The C code is shallowly embedded as follows.

* Single-precision buffers (`float *`) become total functions `ℤ → ℚ` from
  flat indices to exact rational values; single-precision arithmetic is
  modelled exactly over `ℚ` (the operations used by the code on the values
  under test are subtraction, halving and order comparisons).
* Each per-pixel filter (`RingWeights_det2D`, `RingWeights_angles2D`,
  `RingWeights_proj3D`, `RingWeights_det3D`, `RingWeights_angles3D`)
  gathers `2*halfsize+1` samples along one axis (out-of-range taps are
  replaced by the centre sample, exactly as in the C code), sorts them
  ascending and reads the sorted vector at `midval`, where
  `midval = (int)(0.5f*full_window) - 1 = halfsize - 1`.  The read
  `Values_Vec[midval]` is modelled by an `Option`-valued lookup: the C
  performs an out-of-bounds read when `midval = -1` (halfsize 0), which the
  model maps to `none`.
* A full grid pass (the loop nests of `RingWeights_main`) becomes an
  explicit list of (flat index, value) writes applied in order to the
  destination buffer; the whole invocation fails (`none`) as soon as one
  cell's window read is out of bounds.
* `RingWeights_main`'s branch structure — independent `if`s, not
  `if`/`else` chains — is reproduced verbatim, with the zero-filled
  `calloc` scratch buffers `weights_temp` and `weights_temp2` threaded
  through the branches in program order.
-/

/-- Integer range `[0, n)` as a list, empty for `n ≤ 0`; this is the index
set of a C loop `for (i = 0; i < n; i++)` with `long i`. -/
def intRange (n : ℤ) : List ℤ :=
  (List.range n.toNat).map (Nat.cast : ℕ → ℤ)

/-- Point update of a flat buffer, modelling `buf[idx] = v`. -/
def updateBuf (buf : ℤ → ℚ) (idx : ℤ) (v : ℚ) : ℤ → ℚ :=
  fun x => if x = idx then v else buf x

/-- Apply a list of writes `(index, value)` to a buffer, left to right. -/
def writeAll (buf : ℤ → ℚ) (l : List (ℤ × ℚ)) : ℤ → ℚ :=
  l.foldl (fun b p => updateBuf b p.1 p.2) buf

/-- Sequence a list of possibly-failing cell computations: `none` as soon
as one cell fails (one out-of-bounds window read in the C code). -/
def seqCells : List (ℤ × Option ℚ) → Option (List (ℤ × ℚ))
  | [] => some []
  | (k, ov) :: t => ov.bind (fun v => (seqCells t).map (fun r => (k, v) :: r))

/-- Window gathering along one axis, translated from the tap loops of the
five filter functions (for example lines 194-200 of the C file): tap `t`
(numbered `0 .. 2*wh` by `counter`) looks at axis coordinate
`center + t - wh`; if that coordinate is outside `[0, axisLen)` the sample
is the source value at the centre coordinate itself. -/
def gather1D (src : ℤ → ℚ) (center axisLen : ℤ) (wh : ℕ) : List ℚ :=
  (intRange (2 * (wh : ℤ) + 1)).map (fun t =>
    if 0 ≤ center + t - (wh : ℤ) ∧ center + t - (wh : ℤ) < axisLen then
      src (center + t - (wh : ℤ))
    else src center)

/-- Ascending sort of the gathered window; the C code bubble-sorts with
ascending swaps, whose result is the unique ascending reordering. -/
def sortAsc (l : List ℚ) : List ℚ :=
  l.insertionSort (fun a b => a ≤ b)

/-- Selection step of every filter: read the sorted window at
`midval = (int)(0.5f*(2*wh+1)) - 1 = wh - 1`.  For `wh = 0` the C reads
`Values_Vec[-1]`, out of bounds, modelled as `none`. -/
def medianSelect (l : List ℚ) (wh : ℕ) : Option ℚ :=
  if 0 ≤ (wh : ℤ) - 1 then (sortAsc l).get? ((wh : ℤ) - 1).toNat else none

/-- Total value of the selection step when it is in bounds: the sorted
window read at index `wh - 1`. -/
def medianValSel (l : List ℚ) (wh : ℕ) : ℚ :=
  (sortAsc l).getD (wh - 1) 0

/-- `RingWeights_det2D` (C lines 181-213): median-style filter along the
detector axis of a 2D sinogram; flat index of `(i, j)` is
`i*detectorsDim + j`.  The destination buffer and the derived
`full_window` argument of the C signature are dropped; the written value
is returned instead. -/
def RingWeights_det2D (residual : ℤ → ℚ) (whd : ℕ) (anglesDim detectorsDim : ℤ)
    (j i : ℤ) : Option ℚ :=
  medianSelect (gather1D (fun j1 => residual (i * detectorsDim + j1)) j detectorsDim whd) whd

/-- `RingWeights_angles2D` (C lines 215-245): the same filter along the
angle axis of a 2D sinogram. -/
def RingWeights_angles2D (residual : ℤ → ℚ) (wha : ℕ) (anglesDim detectorsDim : ℤ)
    (j i : ℤ) : Option ℚ :=
  medianSelect (gather1D (fun i1 => residual (i1 * detectorsDim + j)) i anglesDim wha) wha

/-- `RingWeights_proj3D` (C lines 249-281): filter along the slice
(projection) axis of a 3D stack; flat index of `(k, i, j)` is
`detectorsDim*anglesDim*k + i*detectorsDim + j`. -/
def RingWeights_proj3D (residual : ℤ → ℚ) (whp : ℕ) (anglesDim detectorsDim slices : ℤ)
    (j i k : ℤ) : Option ℚ :=
  medianSelect
    (gather1D (fun k1 => residual (detectorsDim * anglesDim * k1 + i * detectorsDim + j))
      k slices whp) whp

/-- `RingWeights_det3D` (C lines 283-315): filter along the detector axis
of a 3D stack. -/
def RingWeights_det3D (residual : ℤ → ℚ) (whd : ℕ) (anglesDim detectorsDim slices : ℤ)
    (j i k : ℤ) : Option ℚ :=
  medianSelect
    (gather1D (fun j1 => residual (detectorsDim * anglesDim * k + i * detectorsDim + j1))
      j detectorsDim whd) whd

/-- `RingWeights_angles3D` (C lines 317-347): filter along the angle axis
of a 3D stack. -/
def RingWeights_angles3D (residual : ℤ → ℚ) (wha : ℕ) (anglesDim detectorsDim slices : ℤ)
    (j i k : ℤ) : Option ℚ :=
  medianSelect
    (gather1D (fun i1 => residual (detectorsDim * anglesDim * k + i1 * detectorsDim + j))
      i anglesDim wha) wha

/-- Total detector-axis median of a 2D sinogram at `(i, j)`: the value the
filter writes whenever its window read is in bounds. -/
def DetectorMedian2D (residual : ℤ → ℚ) (whd : ℕ) (anglesDim detectorsDim : ℤ)
    (j i : ℤ) : ℚ :=
  medianValSel (gather1D (fun j1 => residual (i * detectorsDim + j1)) j detectorsDim whd) whd

/-- Total angle-axis median of a 2D sinogram at `(i, j)`. -/
def AngleMedian2D (residual : ℤ → ℚ) (wha : ℕ) (anglesDim detectorsDim : ℤ)
    (j i : ℤ) : ℚ :=
  medianValSel (gather1D (fun i1 => residual (i1 * detectorsDim + j)) i anglesDim wha) wha

/-- Total slice-axis (projection) median of a 3D stack at `(k, i, j)`. -/
def ProjectionMedian3D (residual : ℤ → ℚ) (whp : ℕ) (anglesDim detectorsDim slices : ℤ)
    (j i k : ℤ) : ℚ :=
  medianValSel
    (gather1D (fun k1 => residual (detectorsDim * anglesDim * k1 + i * detectorsDim + j))
      k slices whp) whp

/-- Total detector-axis median of a 3D stack at `(k, i, j)`. -/
def DetectorMedian3D (residual : ℤ → ℚ) (whd : ℕ) (anglesDim detectorsDim slices : ℤ)
    (j i k : ℤ) : ℚ :=
  medianValSel
    (gather1D (fun j1 => residual (detectorsDim * anglesDim * k + i * detectorsDim + j1))
      j detectorsDim whd) whd

/-- Total angle-axis median of a 3D stack at `(k, i, j)`. -/
def AngleMedian3D (residual : ℤ → ℚ) (wha : ℕ) (anglesDim detectorsDim slices : ℤ)
    (j i k : ℤ) : ℚ :=
  medianValSel
    (gather1D (fun i1 => residual (detectorsDim * anglesDim * k + i1 * detectorsDim + j))
      i anglesDim wha) wha

/-- Iteration box of the 2D loop nest: `(i, j)` with `i` over angles and
`j` over detectors, in program order. -/
def box2D (N M : ℤ) : List (ℤ × ℤ) :=
  (intRange N) ×ˢ (intRange M)

/-- Iteration box of the 3D loop nest: `(k, i, j)` with `k` over slices. -/
def box3D (S N M : ℤ) : List (ℤ × ℤ × ℤ) :=
  (intRange S) ×ˢ ((intRange N) ×ˢ (intRange M))

/-- One 2D filter pass over the whole grid (one loop nest of
`RingWeights_main`): write `f i j` at flat index `i*M + j` for every cell,
failing if any cell fails. -/
def pass2D (N M : ℤ) (f : ℤ → ℤ → Option ℚ) (old : ℤ → ℚ) : Option (ℤ → ℚ) :=
  (seqCells ((box2D N M).map (fun p => (p.1 * M + p.2, f p.1 p.2)))).map
    (fun cells => writeAll old cells)

/-- One 3D filter pass over the whole grid: write `f k i j` at flat index
`M*N*k + i*M + j` for every cell. -/
def pass3D (S N M : ℤ) (f : ℤ → ℤ → ℤ → Option ℚ) (old : ℤ → ℚ) : Option (ℤ → ℚ) :=
  (seqCells ((box3D S N M).map
    (fun p => (M * N * p.1 + p.2.1 * M + p.2.2, f p.1 p.2.1 p.2.2)))).map
    (fun cells => writeAll old cells)

/-- Writes of a flat elementwise combination loop
`for (i = 0; i < n; i++) weights[i] = g(i)`. -/
def combine1D (n : ℤ) (g : ℤ → ℚ) : List (ℤ × ℚ) :=
  (intRange n).map (fun idx => (idx, g idx))

/-- Zero-filled scratch buffer, modelling `calloc`. -/
def zeroBuf : ℤ → ℚ := fun _ => 0

/-- State threaded through the 3D branches of `RingWeights_main`:
`(weights_temp, weights_temp2, weights)`. -/
abbrev St : Type := (ℤ → ℚ) × (ℤ → ℚ) × (ℤ → ℚ)

/-- 3D branch at C lines 84-93: when `window_halfsize_angles == 0` and
`window_halfsize_detectors == 0`, run the projection filter into
`weights_temp` and set `weights = residual - weights_temp` elementwise. -/
def branchB1 (residual : ℤ → ℚ) (whd wha whp : ℕ) (N M S : ℤ) (st : St) : Option St :=
  if wha = 0 ∧ whd = 0 then
    (pass3D S N M (fun k i j => RingWeights_proj3D residual whp N M S j i k) st.1).map
      (fun wt => (wt, st.2.1, writeAll st.2.2 (combine1D (N * M * S) (fun x => residual x - wt x))))
  else some st

/-- 3D branch at C lines 94-103: when `window_halfsize_angles == 0` and
`window_halfsize_projections == 0`, run the detector filter into
`weights_temp` and set `weights = residual - weights_temp` elementwise. -/
def branchB2 (residual : ℤ → ℚ) (whd wha whp : ℕ) (N M S : ℤ) (st : St) : Option St :=
  if wha = 0 ∧ whp = 0 then
    (pass3D S N M (fun k i j => RingWeights_det3D residual whd N M S j i k) st.1).map
      (fun wt => (wt, st.2.1, writeAll st.2.2 (combine1D (N * M * S) (fun x => residual x - wt x))))
  else some st

/-- 3D branch at C lines 105-125: all three half-sizes nonzero; angle
filter into `weights_temp`, projection filter into `weights_temp2`,
detector filter into `weights`, then
`weights = weights_temp - 0.5*(weights_temp2 + weights)` elementwise. -/
def branchB3 (residual : ℤ → ℚ) (whd wha whp : ℕ) (N M S : ℤ) (st : St) : Option St :=
  if wha ≠ 0 ∧ whp ≠ 0 ∧ whd ≠ 0 then
    (pass3D S N M (fun k i j => RingWeights_angles3D residual wha N M S j i k) st.1).bind
      (fun wt =>
        (pass3D S N M (fun k i j => RingWeights_proj3D residual whp N M S j i k) st.2.1).bind
          (fun wt2 =>
            (pass3D S N M (fun k i j => RingWeights_det3D residual whd N M S j i k) st.2.2).map
              (fun w1 =>
                (wt, wt2, writeAll w1
                  (combine1D (N * M * S) (fun x => wt x - (1 / 2) * (wt2 x + w1 x)))))))
  else some st

/-- 3D branch at C lines 127-141: angle and projection half-sizes nonzero,
detector half-size zero; `weights = weights_temp - weights_temp2`. -/
def branchB4 (residual : ℤ → ℚ) (whd wha whp : ℕ) (N M S : ℤ) (st : St) : Option St :=
  if wha ≠ 0 ∧ whp ≠ 0 ∧ whd = 0 then
    (pass3D S N M (fun k i j => RingWeights_angles3D residual wha N M S j i k) st.1).bind
      (fun wt =>
        (pass3D S N M (fun k i j => RingWeights_proj3D residual whp N M S j i k) st.2.1).map
          (fun wt2 =>
            (wt, wt2, writeAll st.2.2 (combine1D (N * M * S) (fun x => wt x - wt2 x)))))
  else some st

/-- 3D branch at C lines 143-157: angle and detector half-sizes nonzero,
projection half-size zero; `weights = weights_temp - weights_temp2`. -/
def branchB5 (residual : ℤ → ℚ) (whd wha whp : ℕ) (N M S : ℤ) (st : St) : Option St :=
  if wha ≠ 0 ∧ whp = 0 ∧ whd ≠ 0 then
    (pass3D S N M (fun k i j => RingWeights_angles3D residual wha N M S j i k) st.1).bind
      (fun wt =>
        (pass3D S N M (fun k i j => RingWeights_det3D residual whd N M S j i k) st.2.1).map
          (fun wt2 =>
            (wt, wt2, writeAll st.2.2 (combine1D (N * M * S) (fun x => wt x - wt2 x)))))
  else some st

/-- 3D branch at C lines 158-172: angle half-size zero, projection and
detector half-sizes nonzero;
`weights = residual - 0.5*(weights_temp + weights_temp2)`. -/
def branchB6 (residual : ℤ → ℚ) (whd wha whp : ℕ) (N M S : ℤ) (st : St) : Option St :=
  if wha = 0 ∧ whp ≠ 0 ∧ whd ≠ 0 then
    (pass3D S N M (fun k i j => RingWeights_proj3D residual whp N M S j i k) st.1).bind
      (fun wt =>
        (pass3D S N M (fun k i j => RingWeights_det3D residual whd N M S j i k) st.2.1).map
          (fun wt2 =>
            (wt, wt2, writeAll st.2.2
              (combine1D (N * M * S) (fun x => residual x - (1 / 2) * (wt x + wt2 x))))))
  else some st

/-- `RingWeights_main` (C lines 42-177).  Arguments in the C order:
residual and weights buffers, the detector/angle/projection window
half-sizes, then the angle, detector and slice extents.  The result is the
final weights buffer, or `none` if the invocation performs an
out-of-bounds window read.  The 3D branches are independent `if`s executed
in program order, sharing the scratch buffers. -/
def RingWeights_main (residual weights : ℤ → ℚ) (whd wha whp : ℕ)
    (anglesDim detectorsDim slices : ℤ) : Option (ℤ → ℚ) :=
  if slices = 1 then
    if wha = 0 then
      (pass2D anglesDim detectorsDim
          (fun i j => RingWeights_det2D residual whd anglesDim detectorsDim j i) zeroBuf).map
        (fun wt => writeAll weights
          (combine1D (anglesDim * detectorsDim) (fun x => residual x - wt x)))
    else
      (pass2D anglesDim detectorsDim
          (fun i j => RingWeights_angles2D residual wha anglesDim detectorsDim j i) zeroBuf).bind
        (fun wt =>
          (pass2D anglesDim detectorsDim
              (fun i j => RingWeights_det2D residual whd anglesDim detectorsDim j i) weights).map
            (fun w1 => writeAll w1
              (combine1D (anglesDim * detectorsDim) (fun x => wt x - w1 x))))
  else
    ((((((branchB1 residual whd wha whp anglesDim detectorsDim slices
            (zeroBuf, zeroBuf, weights)).bind
        (branchB2 residual whd wha whp anglesDim detectorsDim slices)).bind
        (branchB3 residual whd wha whp anglesDim detectorsDim slices)).bind
        (branchB4 residual whd wha whp anglesDim detectorsDim slices)).bind
        (branchB5 residual whd wha whp anglesDim detectorsDim slices)).bind
        (branchB6 residual whd wha whp anglesDim detectorsDim slices)).map
      (fun st => st.2.2)


/-! ### Derived pass-result buffers and concrete test inputs -/

/-- Buffer produced by a projection-filter pass over `old` (successful case). -/
def projPass (r : ℤ → ℚ) (whp : ℕ) (N M S : ℤ) (old : ℤ → ℚ) : ℤ → ℚ :=
  writeAll old ((box3D S N M).map
    (fun p => (M * N * p.1 + p.2.1 * M + p.2.2, ProjectionMedian3D r whp N M S p.2.2 p.2.1 p.1)))

/-- Buffer produced by a 3D detector-filter pass over `old` (successful case). -/
def detPass (r : ℤ → ℚ) (whd : ℕ) (N M S : ℤ) (old : ℤ → ℚ) : ℤ → ℚ :=
  writeAll old ((box3D S N M).map
    (fun p => (M * N * p.1 + p.2.1 * M + p.2.2, DetectorMedian3D r whd N M S p.2.2 p.2.1 p.1)))

/-- Buffer produced by a 3D angle-filter pass over `old` (successful case). -/
def angPass (r : ℤ → ℚ) (wha : ℕ) (N M S : ℤ) (old : ℤ → ℚ) : ℤ → ℚ :=
  writeAll old ((box3D S N M).map
    (fun p => (M * N * p.1 + p.2.1 * M + p.2.2, AngleMedian3D r wha N M S p.2.2 p.2.1 p.1)))

/-- Buffer produced by a 2D detector-filter pass over `old` (successful case). -/
def detPass2 (r : ℤ → ℚ) (whd : ℕ) (N M : ℤ) (old : ℤ → ℚ) : ℤ → ℚ :=
  writeAll old ((box2D N M).map
    (fun p => (p.1 * M + p.2, DetectorMedian2D r whd N M p.2 p.1)))

/-- Buffer produced by a 2D angle-filter pass over `old` (successful case). -/
def angPass2 (r : ℤ → ℚ) (wha : ℕ) (N M : ℤ) (old : ℤ → ℚ) : ℤ → ℚ :=
  writeAll old ((box2D N M).map
    (fun p => (p.1 * M + p.2, AngleMedian2D r wha N M p.2 p.1)))

/-- Test row with entries `10, 1, 1, 1, ...`: value 10 at flat index 0 and
1 everywhere else; used as the synthetic row `[10, 1, 1]` and as a
3D residual with one bright cell. -/
def rowTen : ℤ → ℚ := fun x => if x = 0 then 10 else 1

/-! ### Basic facts about ranges and buffer writes -/

lemma mem_intRange {x n : ℤ} : x ∈ intRange n ↔ 0 ≤ x ∧ x < n := by
  unfold intRange
  constructor
  · intro hx
    rcases List.mem_map.mp hx with ⟨t, ht, rfl⟩
    have ht2 : t < n.toNat := List.mem_range.mp ht
    omega
  · intro hx
    refine List.mem_map.mpr ⟨x.toNat, List.mem_range.mpr (by omega), by omega⟩

lemma intRange_nodup (n : ℤ) : (intRange n).Nodup := by
  unfold intRange
  exact List.Nodup.map Nat.cast_injective (List.nodup_range n.toNat)

lemma intRange_eq_nil {n : ℤ} (h : n ≤ 0) : intRange n = [] := by
  unfold intRange
  rw [Int.toNat_eq_zero.mpr h]
  rfl

lemma writeAll_nil (buf : ℤ → ℚ) : writeAll buf [] = buf := rfl

lemma writeAll_not_mem {l : List (ℤ × ℚ)} {x : ℤ} (buf : ℤ → ℚ)
    (h : x ∉ l.map Prod.fst) : writeAll buf l x = buf x := by
  induction l generalizing buf with
  | nil => rfl
  | cons p t ih =>
    simp only [List.map_cons, List.mem_cons, not_or] at h
    show writeAll (updateBuf buf p.1 p.2) t x = buf x
    rw [ih _ h.2]
    unfold updateBuf
    rw [if_neg h.1]

lemma writeAll_mem {l : List (ℤ × ℚ)} {x : ℤ} {v : ℚ} (buf : ℤ → ℚ)
    (hnd : (l.map Prod.fst).Nodup) (hmem : (x, v) ∈ l) : writeAll buf l x = v := by
  induction l generalizing buf with
  | nil => cases hmem
  | cons p t ih =>
    simp only [List.map_cons, List.nodup_cons] at hnd
    rcases List.mem_cons.mp hmem with heq | hmemt
    · subst heq
      show writeAll (updateBuf buf x v) t x = v
      rw [writeAll_not_mem _ hnd.1]
      unfold updateBuf
      rw [if_pos rfl]
    · exact ih _ hnd.2 hmemt

lemma seqCells_map_some {α : Type} (box : List α) (key : α → ℤ) (F : α → Option ℚ)
    (g : α → ℚ) (hall : ∀ p ∈ box, F p = some (g p)) :
    seqCells (box.map (fun p => (key p, F p))) =
      some (box.map (fun p => (key p, g p))) := by
  induction box with
  | nil => rfl
  | cons q t ih =>
    simp only [List.map_cons, seqCells]
    rw [hall q (List.mem_cons_self q t), ih (fun p hp => hall p (List.mem_cons_of_mem q hp))]
    rfl

lemma seqCells_map_none {α : Type} (box : List α) (key : α → ℤ) (F : α → Option ℚ)
    {p : α} (hp : p ∈ box) (hF : F p = none) :
    seqCells (box.map (fun p => (key p, F p))) = none := by
  induction box with
  | nil => cases hp
  | cons q t ih =>
    simp only [List.map_cons, seqCells]
    rcases List.mem_cons.mp hp with heq | hmemt
    · subst heq
      rw [hF]
      rfl
    · rw [ih hmemt]
      cases F q <;> rfl

/-! ### Iteration boxes and flat index arithmetic -/

lemma mem_box2D {p : ℤ × ℤ} {N M : ℤ} :
    p ∈ box2D N M ↔ (0 ≤ p.1 ∧ p.1 < N) ∧ (0 ≤ p.2 ∧ p.2 < M) := by
  obtain ⟨i, j⟩ := p
  unfold box2D
  rw [List.mem_product, mem_intRange, mem_intRange]

lemma mem_box3D {p : ℤ × ℤ × ℤ} {S N M : ℤ} :
    p ∈ box3D S N M ↔
      (0 ≤ p.1 ∧ p.1 < S) ∧ (0 ≤ p.2.1 ∧ p.2.1 < N) ∧ (0 ≤ p.2.2 ∧ p.2.2 < M) := by
  obtain ⟨k, i, j⟩ := p
  unfold box3D
  rw [List.mem_product, List.mem_product, mem_intRange, mem_intRange, mem_intRange]

lemma box2D_nodup (N M : ℤ) : (box2D N M).Nodup :=
  (intRange_nodup N).product (intRange_nodup M)

lemma box3D_nodup (S N M : ℤ) : (box3D S N M).Nodup :=
  (intRange_nodup S).product ((intRange_nodup N).product (intRange_nodup M))

lemma flat_bounds {a c N M : ℤ} (ha0 : 0 ≤ a) (haN : a < N) (hc0 : 0 ≤ c) (hcM : c < M) :
    0 ≤ a * M + c ∧ a * M + c < N * M := by
  have hM : 0 < M := lt_of_le_of_lt hc0 hcM
  constructor
  · have : 0 ≤ a * M := mul_nonneg ha0 hM.le
    linarith
  · have h1 : a * M + c < (a + 1) * M := by nlinarith
    have h2 : (a + 1) * M ≤ N * M := mul_le_mul_of_nonneg_right (by omega) hM.le
    linarith

lemma flat_inj {a b c d M : ℤ} (hc0 : 0 ≤ c) (hcM : c < M) (hd0 : 0 ≤ d) (hdM : d < M)
    (h : a * M + c = b * M + d) : a = b ∧ c = d := by
  have hM : 0 < M := lt_of_le_of_lt hc0 hcM
  have hab : a = b := by
    by_contra hne
    have h1 : (a - b) * M = d - c := by nlinarith
    have h2 : 1 ≤ |a - b| := Int.one_le_abs (sub_ne_zero.mpr hne)
    have h3 : |a - b| * M = |(a - b) * M| := by
      rw [abs_mul, abs_of_pos hM]
    have h4 : M ≤ |a - b| * M := le_mul_of_one_le_left hM.le h2
    have h5 : |d - c| < M := by
      rw [abs_sub_lt_iff]
      omega
    rw [h3, h1] at h4
    linarith
  exact ⟨hab, by subst hab; linarith⟩

lemma flat3_bounds {k i j S N M : ℤ} (hk0 : 0 ≤ k) (hkS : k < S) (hi0 : 0 ≤ i) (hiN : i < N)
    (hj0 : 0 ≤ j) (hjM : j < M) :
    0 ≤ M * N * k + i * M + j ∧ M * N * k + i * M + j < N * M * S := by
  obtain ⟨hin0, hinb⟩ := flat_bounds hi0 hiN hj0 hjM
  have hinb2 : i * M + j < M * N := by linarith [mul_comm N M]
  obtain ⟨hb0, hbS⟩ := flat_bounds hk0 hkS hin0 hinb2
  constructor
  · have he : k * (M * N) + (i * M + j) = M * N * k + i * M + j := by ring
    linarith [he ▸ hb0]
  · have he : k * (M * N) + (i * M + j) = M * N * k + i * M + j := by ring
    have he2 : S * (M * N) = N * M * S := by ring
    linarith [he ▸ hbS, he2]

lemma flat3_inj {k1 i1 j1 k2 i2 j2 S N M : ℤ}
    (hk10 : 0 ≤ k1) (hk1S : k1 < S) (hi10 : 0 ≤ i1) (hi1N : i1 < N) (hj10 : 0 ≤ j1) (hj1M : j1 < M)
    (hk20 : 0 ≤ k2) (hk2S : k2 < S) (hi20 : 0 ≤ i2) (hi2N : i2 < N) (hj20 : 0 ≤ j2) (hj2M : j2 < M)
    (h : M * N * k1 + i1 * M + j1 = M * N * k2 + i2 * M + j2) : k1 = k2 ∧ i1 = i2 ∧ j1 = j2 := by
  obtain ⟨h1a, h1b⟩ := flat_bounds hi10 hi1N hj10 hj1M
  obtain ⟨h2a, h2b⟩ := flat_bounds hi20 hi2N hj20 hj2M
  have hMN : N * M = M * N := mul_comm N M
  have hkey : k1 * (M * N) + (i1 * M + j1) = k2 * (M * N) + (i2 * M + j2) := by linarith
  obtain ⟨hk, hrest⟩ := flat_inj (M := M * N) h1a (by omega) h2a (by omega) hkey
  obtain ⟨hi, hj⟩ := flat_inj hj10 hj1M hj20 hj2M hrest
  exact ⟨hk, hi, hj⟩

/-! ### Window gathering and median selection -/

lemma intRange_length (n : ℤ) : (intRange n).length = n.toNat := by
  unfold intRange
  rw [List.length_map, List.length_range]

lemma intRange_get? {n : ℤ} {t : ℕ} (ht : (t : ℤ) < n) :
    (intRange n).get? t = some (t : ℤ) := by
  unfold intRange
  rw [List.get?_eq_getElem?, List.getElem?_map, List.getElem?_range (by omega)]
  rfl

lemma gather1D_length (src : ℤ → ℚ) (center axisLen : ℤ) (wh : ℕ) :
    (gather1D src center axisLen wh).length = 2 * wh + 1 := by
  unfold gather1D
  rw [List.length_map, intRange_length]
  omega

lemma gather1D_get? {src : ℤ → ℚ} {center axisLen : ℤ} {wh t : ℕ} (ht : t < 2 * wh + 1) :
    (gather1D src center axisLen wh).get? t =
      some (if 0 ≤ center + (t : ℤ) - (wh : ℤ) ∧ center + (t : ℤ) - (wh : ℤ) < axisLen then
        src (center + (t : ℤ) - (wh : ℤ)) else src center) := by
  unfold gather1D
  rw [List.get?_eq_getElem?, List.getElem?_map]
  have hget := intRange_get? (n := 2 * (wh : ℤ) + 1) (t := t) (by omega)
  rw [List.get?_eq_getElem?] at hget
  rw [hget]
  rfl

lemma gather1D_mem_of_mem {src : ℤ → ℚ} {center axisLen : ℤ} {wh : ℕ} {x : ℚ}
    (hx : x ∈ gather1D src center axisLen wh) :
    (∃ c1, 0 ≤ c1 ∧ c1 < axisLen ∧ x = src c1) ∨ x = src center := by
  unfold gather1D at hx
  rcases List.mem_map.mp hx with ⟨t, _, rfl⟩
  by_cases hin : 0 ≤ center + (t : ℤ) - (wh : ℤ) ∧ center + (t : ℤ) - (wh : ℤ) < axisLen
  · rw [if_pos hin]
    exact Or.inl ⟨center + (t : ℤ) - (wh : ℤ), hin.1, hin.2, rfl⟩
  · rw [if_neg hin]
    exact Or.inr rfl

lemma gather1D_const {src : ℤ → ℚ} {v : ℚ} (hsrc : ∀ y, src y = v)
    (center axisLen : ℤ) (wh : ℕ) : ∀ x ∈ gather1D src center axisLen wh, x = v := by
  intro x hx
  rcases gather1D_mem_of_mem hx with ⟨c1, _, _, rfl⟩ | rfl
  · exact hsrc c1
  · exact hsrc center

lemma medianSelect_zero (l : List ℚ) : medianSelect l 0 = none := by
  unfold medianSelect
  rw [if_neg (by decide)]

lemma medianSelect_some {l : List ℚ} {wh : ℕ} (h1 : 1 ≤ wh) (hlen : wh - 1 < l.length) :
    medianSelect l wh = some (medianValSel l wh) := by
  unfold medianSelect medianValSel
  rw [if_pos (by omega : (0 : ℤ) ≤ (wh : ℤ) - 1)]
  have htn : ((wh : ℤ) - 1).toNat = wh - 1 := by omega
  have hlen2 : wh - 1 < (sortAsc l).length := by
    unfold sortAsc
    rw [List.length_insertionSort]
    exact hlen
  rw [htn, List.get?_eq_getElem?, List.getElem?_eq_getElem hlen2,
    List.getD_eq_getElem _ _ hlen2]

lemma medianValSel_mem {l : List ℚ} {wh : ℕ} (hlen : wh - 1 < l.length) :
    medianValSel l wh ∈ l := by
  unfold medianValSel
  have hlen2 : wh - 1 < (sortAsc l).length := by
    unfold sortAsc
    rw [List.length_insertionSort]
    exact hlen
  rw [List.getD_eq_getElem _ _ hlen2]
  have hmem := List.getElem_mem hlen2
  unfold sortAsc at hmem
  exact (List.perm_insertionSort (fun a b : ℚ => a ≤ b) l).mem_iff.mp hmem

lemma medianValSel_const {l : List ℚ} {wh : ℕ} {v : ℚ} (hall : ∀ x ∈ l, x = v)
    (hlen : wh - 1 < l.length) : medianValSel l wh = v :=
  hall _ (medianValSel_mem hlen)

/-! ### The filters succeed exactly on nonzero half-sizes -/

lemma det2D_eq_some {r : ℤ → ℚ} {whd : ℕ} (h1 : 1 ≤ whd) (N M j i : ℤ) :
    RingWeights_det2D r whd N M j i = some (DetectorMedian2D r whd N M j i) := by
  unfold RingWeights_det2D DetectorMedian2D
  exact medianSelect_some h1 (by rw [gather1D_length]; omega)

lemma angles2D_eq_some {r : ℤ → ℚ} {wha : ℕ} (h1 : 1 ≤ wha) (N M j i : ℤ) :
    RingWeights_angles2D r wha N M j i = some (AngleMedian2D r wha N M j i) := by
  unfold RingWeights_angles2D AngleMedian2D
  exact medianSelect_some h1 (by rw [gather1D_length]; omega)

lemma proj3D_eq_some {r : ℤ → ℚ} {whp : ℕ} (h1 : 1 ≤ whp) (N M S j i k : ℤ) :
    RingWeights_proj3D r whp N M S j i k = some (ProjectionMedian3D r whp N M S j i k) := by
  unfold RingWeights_proj3D ProjectionMedian3D
  exact medianSelect_some h1 (by rw [gather1D_length]; omega)

lemma det3D_eq_some {r : ℤ → ℚ} {whd : ℕ} (h1 : 1 ≤ whd) (N M S j i k : ℤ) :
    RingWeights_det3D r whd N M S j i k = some (DetectorMedian3D r whd N M S j i k) := by
  unfold RingWeights_det3D DetectorMedian3D
  exact medianSelect_some h1 (by rw [gather1D_length]; omega)

lemma angles3D_eq_some {r : ℤ → ℚ} {wha : ℕ} (h1 : 1 ≤ wha) (N M S j i k : ℤ) :
    RingWeights_angles3D r wha N M S j i k = some (AngleMedian3D r wha N M S j i k) := by
  unfold RingWeights_angles3D AngleMedian3D
  exact medianSelect_some h1 (by rw [gather1D_length]; omega)

lemma det2D_zero_none (r : ℤ → ℚ) (N M j i : ℤ) :
    RingWeights_det2D r 0 N M j i = none :=
  medianSelect_zero _

/-! ### Pass-level lemmas: lookup, failure, empty boxes -/

lemma writeAll_box2D_val (old : ℤ → ℚ) (g : ℤ → ℤ → ℚ) {N M i j : ℤ}
    (hi0 : 0 ≤ i) (hiN : i < N) (hj0 : 0 ≤ j) (hjM : j < M) :
    writeAll old ((box2D N M).map (fun p => (p.1 * M + p.2, g p.1 p.2))) (i * M + j) = g i j := by
  apply writeAll_mem old
  · rw [List.map_map]
    have hcomp : (Prod.fst ∘ fun p : ℤ × ℤ => (p.1 * M + p.2, g p.1 p.2)) =
        fun p : ℤ × ℤ => p.1 * M + p.2 := rfl
    rw [hcomp]
    refine List.Nodup.map_on ?_ (box2D_nodup N M)
    intro x hx y hy hxy
    obtain ⟨hx1, hx2⟩ := mem_box2D.mp hx
    obtain ⟨hy1, hy2⟩ := mem_box2D.mp hy
    obtain ⟨h1, h2⟩ := flat_inj hx2.1 hx2.2 hy2.1 hy2.2 hxy
    exact Prod.ext h1 h2
  · exact List.mem_map.mpr ⟨(i, j), mem_box2D.mpr ⟨⟨hi0, hiN⟩, hj0, hjM⟩, rfl⟩

lemma writeAll_box3D_val (old : ℤ → ℚ) (g : ℤ → ℤ → ℤ → ℚ) {S N M k i j : ℤ}
    (hk0 : 0 ≤ k) (hkS : k < S) (hi0 : 0 ≤ i) (hiN : i < N) (hj0 : 0 ≤ j) (hjM : j < M) :
    writeAll old ((box3D S N M).map
      (fun p => (M * N * p.1 + p.2.1 * M + p.2.2, g p.1 p.2.1 p.2.2)))
      (M * N * k + i * M + j) = g k i j := by
  apply writeAll_mem old
  · rw [List.map_map]
    have hcomp : (Prod.fst ∘ fun p : ℤ × ℤ × ℤ =>
        (M * N * p.1 + p.2.1 * M + p.2.2, g p.1 p.2.1 p.2.2)) =
        fun p : ℤ × ℤ × ℤ => M * N * p.1 + p.2.1 * M + p.2.2 := rfl
    rw [hcomp]
    refine List.Nodup.map_on ?_ (box3D_nodup S N M)
    intro x hx y hy hxy
    obtain ⟨hx1, hx2, hx3⟩ := mem_box3D.mp hx
    obtain ⟨hy1, hy2, hy3⟩ := mem_box3D.mp hy
    obtain ⟨h1, h2, h3⟩ := flat3_inj hx1.1 hx1.2 hx2.1 hx2.2 hx3.1 hx3.2
      hy1.1 hy1.2 hy2.1 hy2.2 hy3.1 hy3.2 hxy
    obtain ⟨xk, xi, xj⟩ := x
    obtain ⟨yk, yi, yj⟩ := y
    simp_all
  · exact List.mem_map.mpr ⟨(k, i, j), mem_box3D.mpr ⟨⟨hk0, hkS⟩, ⟨hi0, hiN⟩, hj0, hjM⟩, rfl⟩

lemma combine1D_lookup (b : ℤ → ℚ) (n : ℤ) (g : ℤ → ℚ) {x : ℤ} (h0 : 0 ≤ x) (hn : x < n) :
    writeAll b (combine1D n g) x = g x := by
  apply writeAll_mem b
  · unfold combine1D
    rw [List.map_map]
    have hcomp : (Prod.fst ∘ fun idx : ℤ => (idx, g idx)) = id := rfl
    rw [hcomp, List.map_id]
    exact intRange_nodup n
  · exact List.mem_map.mpr ⟨x, mem_intRange.mpr ⟨h0, hn⟩, rfl⟩

lemma pass2D_eq_some {N M : ℤ} {f : ℤ → ℤ → Option ℚ} {g : ℤ → ℤ → ℚ} (old : ℤ → ℚ)
    (hf : ∀ i j, 0 ≤ i → i < N → 0 ≤ j → j < M → f i j = some (g i j)) :
    pass2D N M f old =
      some (writeAll old ((box2D N M).map (fun p => (p.1 * M + p.2, g p.1 p.2)))) := by
  unfold pass2D
  rw [seqCells_map_some (box2D N M) (fun p => p.1 * M + p.2) (fun p => f p.1 p.2)
    (fun p => g p.1 p.2) ?_]
  · rfl
  · intro p hp
    obtain ⟨h1, h2⟩ := mem_box2D.mp hp
    exact hf p.1 p.2 h1.1 h1.2 h2.1 h2.2

lemma pass3D_eq_some {S N M : ℤ} {f : ℤ → ℤ → ℤ → Option ℚ} {g : ℤ → ℤ → ℤ → ℚ} (old : ℤ → ℚ)
    (hf : ∀ k i j, 0 ≤ k → k < S → 0 ≤ i → i < N → 0 ≤ j → j < M → f k i j = some (g k i j)) :
    pass3D S N M f old =
      some (writeAll old ((box3D S N M).map
        (fun p => (M * N * p.1 + p.2.1 * M + p.2.2, g p.1 p.2.1 p.2.2)))) := by
  unfold pass3D
  rw [seqCells_map_some (box3D S N M) (fun p => M * N * p.1 + p.2.1 * M + p.2.2)
    (fun p => f p.1 p.2.1 p.2.2) (fun p => g p.1 p.2.1 p.2.2) ?_]
  · rfl
  · intro p hp
    obtain ⟨h1, h2, h3⟩ := mem_box3D.mp hp
    exact hf p.1 p.2.1 p.2.2 h1.1 h1.2 h2.1 h2.2 h3.1 h3.2

lemma pass2D_none {N M : ℤ} {f : ℤ → ℤ → Option ℚ} (old : ℤ → ℚ) {i j : ℤ}
    (hi0 : 0 ≤ i) (hiN : i < N) (hj0 : 0 ≤ j) (hjM : j < M) (hf : f i j = none) :
    pass2D N M f old = none := by
  unfold pass2D
  rw [seqCells_map_none (box2D N M) (fun p => p.1 * M + p.2) (fun p => f p.1 p.2)
    (p := (i, j)) (mem_box2D.mpr ⟨⟨hi0, hiN⟩, hj0, hjM⟩) hf]
  rfl

lemma pass3D_none {S N M : ℤ} {f : ℤ → ℤ → ℤ → Option ℚ} (old : ℤ → ℚ) {k i j : ℤ}
    (hk0 : 0 ≤ k) (hkS : k < S) (hi0 : 0 ≤ i) (hiN : i < N) (hj0 : 0 ≤ j) (hjM : j < M)
    (hf : f k i j = none) :
    pass3D S N M f old = none := by
  unfold pass3D
  rw [seqCells_map_none (box3D S N M) (fun p => M * N * p.1 + p.2.1 * M + p.2.2)
    (fun p => f p.1 p.2.1 p.2.2) (p := (k, i, j))
    (mem_box3D.mpr ⟨⟨hk0, hkS⟩, ⟨hi0, hiN⟩, hj0, hjM⟩) hf]
  rfl

lemma box2D_eq_nil {N M : ℤ} (h : N = 0 ∨ M = 0) : box2D N M = [] := by
  unfold box2D
  rcases h with h | h
  · rw [h, intRange_eq_nil le_rfl, List.nil_product]
  · rw [h, intRange_eq_nil le_rfl, List.product_nil]

lemma box3D_eq_nil {S N M : ℤ} (h : S = 0 ∨ N = 0 ∨ M = 0) : box3D S N M = [] := by
  unfold box3D
  rcases h with h | h
  · rw [h, intRange_eq_nil le_rfl, List.nil_product]
  · have hin : (intRange N) ×ˢ (intRange M) = ([] : List (ℤ × ℤ)) := by
      rcases h with h | h
      · rw [h, intRange_eq_nil le_rfl, List.nil_product]
      · rw [h, intRange_eq_nil le_rfl, List.product_nil]
    rw [hin, List.product_nil]

lemma pass2D_of_nil {N M : ℤ} (f : ℤ → ℤ → Option ℚ) (old : ℤ → ℚ) (h : box2D N M = []) :
    pass2D N M f old = some old := by
  unfold pass2D
  rw [h]
  rfl

lemma pass3D_of_nil {S N M : ℤ} (f : ℤ → ℤ → ℤ → Option ℚ) (old : ℤ → ℚ)
    (h : box3D S N M = []) : pass3D S N M f old = some old := by
  unfold pass3D
  rw [h]
  rfl

lemma combine1D_of_nonpos {n : ℤ} (g : ℤ → ℚ) (h : n ≤ 0) : combine1D n g = [] := by
  unfold combine1D
  rw [intRange_eq_nil h]
  rfl

lemma projPass3D_eq {r : ℤ → ℚ} {whp : ℕ} {N M S : ℤ} (h1 : 1 ≤ whp) (old : ℤ → ℚ) :
    pass3D S N M (fun k i j => RingWeights_proj3D r whp N M S j i k) old =
      some (projPass r whp N M S old) := by
  unfold projPass
  exact pass3D_eq_some old (fun k i j _ _ _ _ _ _ => proj3D_eq_some h1 N M S j i k)

lemma detPass3D_eq {r : ℤ → ℚ} {whd : ℕ} {N M S : ℤ} (h1 : 1 ≤ whd) (old : ℤ → ℚ) :
    pass3D S N M (fun k i j => RingWeights_det3D r whd N M S j i k) old =
      some (detPass r whd N M S old) := by
  unfold detPass
  exact pass3D_eq_some old (fun k i j _ _ _ _ _ _ => det3D_eq_some h1 N M S j i k)

lemma angPass3D_eq {r : ℤ → ℚ} {wha : ℕ} {N M S : ℤ} (h1 : 1 ≤ wha) (old : ℤ → ℚ) :
    pass3D S N M (fun k i j => RingWeights_angles3D r wha N M S j i k) old =
      some (angPass r wha N M S old) := by
  unfold angPass
  exact pass3D_eq_some old (fun k i j _ _ _ _ _ _ => angles3D_eq_some h1 N M S j i k)

lemma detPass2D_eq {r : ℤ → ℚ} {whd : ℕ} {N M : ℤ} (h1 : 1 ≤ whd) (old : ℤ → ℚ) :
    pass2D N M (fun i j => RingWeights_det2D r whd N M j i) old =
      some (detPass2 r whd N M old) := by
  unfold detPass2
  exact pass2D_eq_some old (fun i j _ _ _ _ => det2D_eq_some h1 N M j i)

lemma angPass2D_eq {r : ℤ → ℚ} {wha : ℕ} {N M : ℤ} (h1 : 1 ≤ wha) (old : ℤ → ℚ) :
    pass2D N M (fun i j => RingWeights_angles2D r wha N M j i) old =
      some (angPass2 r wha N M old) := by
  unfold angPass2
  exact pass2D_eq_some old (fun i j _ _ _ _ => angles2D_eq_some h1 N M j i)

lemma projPass_val {r : ℤ → ℚ} {whp : ℕ} {N M S : ℤ} (old : ℤ → ℚ) {k i j : ℤ}
    (hk0 : 0 ≤ k) (hkS : k < S) (hi0 : 0 ≤ i) (hiN : i < N) (hj0 : 0 ≤ j) (hjM : j < M) :
    projPass r whp N M S old (M * N * k + i * M + j) = ProjectionMedian3D r whp N M S j i k :=
  writeAll_box3D_val old (fun k i j => ProjectionMedian3D r whp N M S j i k)
    hk0 hkS hi0 hiN hj0 hjM

lemma detPass_val {r : ℤ → ℚ} {whd : ℕ} {N M S : ℤ} (old : ℤ → ℚ) {k i j : ℤ}
    (hk0 : 0 ≤ k) (hkS : k < S) (hi0 : 0 ≤ i) (hiN : i < N) (hj0 : 0 ≤ j) (hjM : j < M) :
    detPass r whd N M S old (M * N * k + i * M + j) = DetectorMedian3D r whd N M S j i k :=
  writeAll_box3D_val old (fun k i j => DetectorMedian3D r whd N M S j i k)
    hk0 hkS hi0 hiN hj0 hjM

lemma angPass_val {r : ℤ → ℚ} {wha : ℕ} {N M S : ℤ} (old : ℤ → ℚ) {k i j : ℤ}
    (hk0 : 0 ≤ k) (hkS : k < S) (hi0 : 0 ≤ i) (hiN : i < N) (hj0 : 0 ≤ j) (hjM : j < M) :
    angPass r wha N M S old (M * N * k + i * M + j) = AngleMedian3D r wha N M S j i k :=
  writeAll_box3D_val old (fun k i j => AngleMedian3D r wha N M S j i k)
    hk0 hkS hi0 hiN hj0 hjM

lemma detPass2_val {r : ℤ → ℚ} {whd : ℕ} {N M : ℤ} (old : ℤ → ℚ) {i j : ℤ}
    (hi0 : 0 ≤ i) (hiN : i < N) (hj0 : 0 ≤ j) (hjM : j < M) :
    detPass2 r whd N M old (i * M + j) = DetectorMedian2D r whd N M j i :=
  writeAll_box2D_val old (fun i j => DetectorMedian2D r whd N M j i) hi0 hiN hj0 hjM

lemma angPass2_val {r : ℤ → ℚ} {wha : ℕ} {N M : ℤ} (old : ℤ → ℚ) {i j : ℤ}
    (hi0 : 0 ≤ i) (hiN : i < N) (hj0 : 0 ≤ j) (hjM : j < M) :
    angPass2 r wha N M old (i * M + j) = AngleMedian2D r wha N M j i :=
  writeAll_box2D_val old (fun i j => AngleMedian2D r wha N M j i) hi0 hiN hj0 hjM

/-! ### Branch skip lemmas -/

lemma branchB1_skip (r : ℤ → ℚ) {whd wha whp : ℕ} (h : ¬(wha = 0 ∧ whd = 0)) (N M S : ℤ)
    (st : St) : branchB1 r whd wha whp N M S st = some st := by
  unfold branchB1
  rw [if_neg h]

lemma branchB2_skip (r : ℤ → ℚ) {whd wha whp : ℕ} (h : ¬(wha = 0 ∧ whp = 0)) (N M S : ℤ)
    (st : St) : branchB2 r whd wha whp N M S st = some st := by
  unfold branchB2
  rw [if_neg h]

lemma branchB3_skip (r : ℤ → ℚ) {whd wha whp : ℕ} (h : ¬(wha ≠ 0 ∧ whp ≠ 0 ∧ whd ≠ 0))
    (N M S : ℤ) (st : St) : branchB3 r whd wha whp N M S st = some st := by
  unfold branchB3
  rw [if_neg h]

lemma branchB4_skip (r : ℤ → ℚ) {whd wha whp : ℕ} (h : ¬(wha ≠ 0 ∧ whp ≠ 0 ∧ whd = 0))
    (N M S : ℤ) (st : St) : branchB4 r whd wha whp N M S st = some st := by
  unfold branchB4
  rw [if_neg h]

lemma branchB5_skip (r : ℤ → ℚ) {whd wha whp : ℕ} (h : ¬(wha ≠ 0 ∧ whp = 0 ∧ whd ≠ 0))
    (N M S : ℤ) (st : St) : branchB5 r whd wha whp N M S st = some st := by
  unfold branchB5
  rw [if_neg h]

lemma branchB6_skip (r : ℤ → ℚ) {whd wha whp : ℕ} (h : ¬(wha = 0 ∧ whp ≠ 0 ∧ whd ≠ 0))
    (N M S : ℤ) (st : St) : branchB6 r whd wha whp N M S st = some st := by
  unfold branchB6
  rw [if_neg h]

/-! ### Main-level branch equations -/

lemma main3D_projOnly {r w : ℤ → ℚ} {whp : ℕ} {N M S : ℤ} (hS : S ≠ 1) (h1 : 1 ≤ whp) :
    RingWeights_main r w 0 0 whp N M S =
      some (writeAll w (combine1D (N * M * S)
        (fun x => r x - projPass r whp N M S zeroBuf x))) := by
  unfold RingWeights_main
  rw [if_neg hS]
  unfold branchB1
  rw [if_pos ⟨rfl, rfl⟩, projPass3D_eq h1, Option.map_some', Option.some_bind,
    branchB2_skip r (by omega), Option.some_bind,
    branchB3_skip r (by omega), Option.some_bind,
    branchB4_skip r (by omega), Option.some_bind,
    branchB5_skip r (by omega), Option.some_bind,
    branchB6_skip r (by omega), Option.map_some']

lemma main3D_detOnly {r w : ℤ → ℚ} {whd : ℕ} {N M S : ℤ} (hS : S ≠ 1) (h1 : 1 ≤ whd) :
    RingWeights_main r w whd 0 0 N M S =
      some (writeAll w (combine1D (N * M * S)
        (fun x => r x - detPass r whd N M S zeroBuf x))) := by
  unfold RingWeights_main
  rw [if_neg hS, branchB1_skip r (by omega), Option.some_bind]
  unfold branchB2
  rw [if_pos ⟨rfl, rfl⟩, detPass3D_eq h1, Option.map_some', Option.some_bind,
    branchB3_skip r (by omega), Option.some_bind,
    branchB4_skip r (by omega), Option.some_bind,
    branchB5_skip r (by omega), Option.some_bind,
    branchB6_skip r (by omega), Option.map_some']

lemma main3D_threeWay {r w : ℤ → ℚ} {whd wha whp : ℕ} {N M S : ℤ} (hS : S ≠ 1)
    (hd1 : 1 ≤ whd) (ha1 : 1 ≤ wha) (hp1 : 1 ≤ whp) :
    RingWeights_main r w whd wha whp N M S =
      some (writeAll (detPass r whd N M S w) (combine1D (N * M * S)
        (fun x => angPass r wha N M S zeroBuf x -
          (1 / 2) * (projPass r whp N M S zeroBuf x + detPass r whd N M S w x)))) := by
  unfold RingWeights_main
  rw [if_neg hS, branchB1_skip r (by omega), Option.some_bind,
    branchB2_skip r (by omega), Option.some_bind]
  unfold branchB3
  rw [if_pos ⟨by omega, by omega, by omega⟩, angPass3D_eq ha1, Option.some_bind,
    projPass3D_eq hp1, Option.some_bind, detPass3D_eq hd1, Option.map_some', Option.some_bind,
    branchB4_skip r (by omega), Option.some_bind,
    branchB5_skip r (by omega), Option.some_bind,
    branchB6_skip r (by omega), Option.map_some']

lemma main3D_angProj {r w : ℤ → ℚ} {wha whp : ℕ} {N M S : ℤ} (hS : S ≠ 1)
    (ha1 : 1 ≤ wha) (hp1 : 1 ≤ whp) :
    RingWeights_main r w 0 wha whp N M S =
      some (writeAll w (combine1D (N * M * S)
        (fun x => angPass r wha N M S zeroBuf x - projPass r whp N M S zeroBuf x))) := by
  unfold RingWeights_main
  rw [if_neg hS, branchB1_skip r (by omega), Option.some_bind,
    branchB2_skip r (by omega), Option.some_bind,
    branchB3_skip r (by omega), Option.some_bind]
  unfold branchB4
  rw [if_pos ⟨by omega, by omega, rfl⟩, angPass3D_eq ha1, Option.some_bind,
    projPass3D_eq hp1, Option.map_some', Option.some_bind,
    branchB5_skip r (by omega), Option.some_bind,
    branchB6_skip r (by omega), Option.map_some']

lemma main3D_angDet {r w : ℤ → ℚ} {whd wha : ℕ} {N M S : ℤ} (hS : S ≠ 1)
    (ha1 : 1 ≤ wha) (hd1 : 1 ≤ whd) :
    RingWeights_main r w whd wha 0 N M S =
      some (writeAll w (combine1D (N * M * S)
        (fun x => angPass r wha N M S zeroBuf x - detPass r whd N M S zeroBuf x))) := by
  unfold RingWeights_main
  rw [if_neg hS, branchB1_skip r (by omega), Option.some_bind,
    branchB2_skip r (by omega), Option.some_bind,
    branchB3_skip r (by omega), Option.some_bind,
    branchB4_skip r (by omega), Option.some_bind]
  unfold branchB5
  rw [if_pos ⟨by omega, rfl, by omega⟩, angPass3D_eq ha1, Option.some_bind,
    detPass3D_eq hd1, Option.map_some', Option.some_bind,
    branchB6_skip r (by omega), Option.map_some']

lemma main3D_projDet {r w : ℤ → ℚ} {whd whp : ℕ} {N M S : ℤ} (hS : S ≠ 1)
    (hp1 : 1 ≤ whp) (hd1 : 1 ≤ whd) :
    RingWeights_main r w whd 0 whp N M S =
      some (writeAll w (combine1D (N * M * S)
        (fun x => r x -
          (1 / 2) * (projPass r whp N M S zeroBuf x + detPass r whd N M S zeroBuf x)))) := by
  unfold RingWeights_main
  rw [if_neg hS, branchB1_skip r (by omega), Option.some_bind,
    branchB2_skip r (by omega), Option.some_bind,
    branchB3_skip r (by omega), Option.some_bind,
    branchB4_skip r (by omega), Option.some_bind,
    branchB5_skip r (by omega), Option.some_bind]
  unfold branchB6
  rw [if_pos ⟨rfl, by omega, by omega⟩, projPass3D_eq hp1, Option.some_bind,
    detPass3D_eq hd1, Option.map_some', Option.map_some']

lemma main3D_untouched {r w : ℤ → ℚ} {wha : ℕ} {N M S : ℤ} (hS : S ≠ 1) (ha1 : 1 ≤ wha) :
    RingWeights_main r w 0 wha 0 N M S = some w := by
  unfold RingWeights_main
  rw [if_neg hS, branchB1_skip r (by omega), Option.some_bind,
    branchB2_skip r (by omega), Option.some_bind,
    branchB3_skip r (by omega), Option.some_bind,
    branchB4_skip r (by omega), Option.some_bind,
    branchB5_skip r (by omega), Option.some_bind,
    branchB6_skip r (by omega), Option.map_some']

lemma main2D_angle0 {r w : ℤ → ℚ} {whd whp : ℕ} {N M : ℤ} (h1 : 1 ≤ whd) :
    RingWeights_main r w whd 0 whp N M 1 =
      some (writeAll w (combine1D (N * M)
        (fun x => r x - detPass2 r whd N M zeroBuf x))) := by
  unfold RingWeights_main
  rw [if_pos rfl, if_pos rfl, detPass2D_eq h1, Option.map_some']

lemma main2D_angleNZ {r w : ℤ → ℚ} {whd wha whp : ℕ} {N M : ℤ} (ha1 : 1 ≤ wha)
    (hd1 : 1 ≤ whd) :
    RingWeights_main r w whd wha whp N M 1 =
      some (writeAll (detPass2 r whd N M w) (combine1D (N * M)
        (fun x => angPass2 r wha N M zeroBuf x - detPass2 r whd N M w x))) := by
  unfold RingWeights_main
  rw [if_pos rfl, if_neg (by omega), angPass2D_eq ha1, Option.some_bind,
    detPass2D_eq hd1, Option.map_some']

/-! ### Failure and frame cases -/

lemma projPass3D_zero_none (r : ℤ → ℚ) {N M S : ℤ} (hS : 1 ≤ S) (hN : 1 ≤ N) (hM : 1 ≤ M)
    (old : ℤ → ℚ) :
    pass3D S N M (fun k i j => RingWeights_proj3D r 0 N M S j i k) old = none :=
  pass3D_none old (le_refl 0) (by omega) (le_refl 0) (by omega) (le_refl 0) (by omega)
    (medianSelect_zero _)

lemma detPass2D_zero_none (r : ℤ → ℚ) {N M : ℤ} (hN : 1 ≤ N) (hM : 1 ≤ M) (old : ℤ → ℚ) :
    pass2D N M (fun i j => RingWeights_det2D r 0 N M j i) old = none :=
  pass2D_none old (le_refl 0) (by omega) (le_refl 0) (by omega) (medianSelect_zero _)

lemma main3D_allzero_none {r w : ℤ → ℚ} {N M S : ℤ} (hS : 2 ≤ S) (hN : 1 ≤ N) (hM : 1 ≤ M) :
    RingWeights_main r w 0 0 0 N M S = none := by
  unfold RingWeights_main
  rw [if_neg (by omega), ]
  unfold branchB1
  rw [if_pos ⟨rfl, rfl⟩, projPass3D_zero_none r (by omega) hN hM]
  rfl

lemma main2D_det0_none {r w : ℤ → ℚ} {whp : ℕ} {N M : ℤ} (hN : 1 ≤ N) (hM : 1 ≤ M) :
    RingWeights_main r w 0 0 whp N M 1 = none := by
  unfold RingWeights_main
  rw [if_pos rfl, if_pos rfl, detPass2D_zero_none r hN hM]
  rfl

lemma branchB1_empty (r : ℤ → ℚ) (whd wha whp : ℕ) {N M S : ℤ}
    (hz : N = 0 ∨ M = 0 ∨ S = 0) (st : St) : branchB1 r whd wha whp N M S st = some st := by
  unfold branchB1
  by_cases hc : wha = 0 ∧ whd = 0
  · rw [if_pos hc, pass3D_of_nil _ _ (box3D_eq_nil (by tauto)), Option.map_some',
      combine1D_of_nonpos _ (by rcases hz with h | h | h <;> simp [h]), writeAll_nil]
  · rw [if_neg hc]

lemma branchB2_empty (r : ℤ → ℚ) (whd wha whp : ℕ) {N M S : ℤ}
    (hz : N = 0 ∨ M = 0 ∨ S = 0) (st : St) : branchB2 r whd wha whp N M S st = some st := by
  unfold branchB2
  by_cases hc : wha = 0 ∧ whp = 0
  · rw [if_pos hc, pass3D_of_nil _ _ (box3D_eq_nil (by tauto)), Option.map_some',
      combine1D_of_nonpos _ (by rcases hz with h | h | h <;> simp [h]), writeAll_nil]
  · rw [if_neg hc]

lemma branchB3_empty (r : ℤ → ℚ) (whd wha whp : ℕ) {N M S : ℤ}
    (hz : N = 0 ∨ M = 0 ∨ S = 0) (st : St) : branchB3 r whd wha whp N M S st = some st := by
  unfold branchB3
  by_cases hc : wha ≠ 0 ∧ whp ≠ 0 ∧ whd ≠ 0
  · rw [if_pos hc, pass3D_of_nil _ _ (box3D_eq_nil (by tauto)), Option.some_bind,
      pass3D_of_nil _ _ (box3D_eq_nil (by tauto)), Option.some_bind,
      pass3D_of_nil _ _ (box3D_eq_nil (by tauto)), Option.map_some',
      combine1D_of_nonpos _ (by rcases hz with h | h | h <;> simp [h]), writeAll_nil]
  · rw [if_neg hc]

lemma branchB4_empty (r : ℤ → ℚ) (whd wha whp : ℕ) {N M S : ℤ}
    (hz : N = 0 ∨ M = 0 ∨ S = 0) (st : St) : branchB4 r whd wha whp N M S st = some st := by
  unfold branchB4
  by_cases hc : wha ≠ 0 ∧ whp ≠ 0 ∧ whd = 0
  · rw [if_pos hc, pass3D_of_nil _ _ (box3D_eq_nil (by tauto)), Option.some_bind,
      pass3D_of_nil _ _ (box3D_eq_nil (by tauto)), Option.map_some',
      combine1D_of_nonpos _ (by rcases hz with h | h | h <;> simp [h]), writeAll_nil]
  · rw [if_neg hc]

lemma branchB5_empty (r : ℤ → ℚ) (whd wha whp : ℕ) {N M S : ℤ}
    (hz : N = 0 ∨ M = 0 ∨ S = 0) (st : St) : branchB5 r whd wha whp N M S st = some st := by
  unfold branchB5
  by_cases hc : wha ≠ 0 ∧ whp = 0 ∧ whd ≠ 0
  · rw [if_pos hc, pass3D_of_nil _ _ (box3D_eq_nil (by tauto)), Option.some_bind,
      pass3D_of_nil _ _ (box3D_eq_nil (by tauto)), Option.map_some',
      combine1D_of_nonpos _ (by rcases hz with h | h | h <;> simp [h]), writeAll_nil]
  · rw [if_neg hc]

lemma branchB6_empty (r : ℤ → ℚ) (whd wha whp : ℕ) {N M S : ℤ}
    (hz : N = 0 ∨ M = 0 ∨ S = 0) (st : St) : branchB6 r whd wha whp N M S st = some st := by
  unfold branchB6
  by_cases hc : wha = 0 ∧ whp ≠ 0 ∧ whd ≠ 0
  · rw [if_pos hc, pass3D_of_nil _ _ (box3D_eq_nil (by tauto)), Option.some_bind,
      pass3D_of_nil _ _ (box3D_eq_nil (by tauto)), Option.map_some',
      combine1D_of_nonpos _ (by rcases hz with h | h | h <;> simp [h]), writeAll_nil]
  · rw [if_neg hc]

lemma main_zero_extent (r w : ℤ → ℚ) (whd wha whp : ℕ) {N M S : ℤ}
    (hz : N = 0 ∨ M = 0 ∨ S = 0) :
    RingWeights_main r w whd wha whp N M S = some w := by
  unfold RingWeights_main
  by_cases hS : S = 1
  · subst hS
    have hNM : N = 0 ∨ M = 0 := by omega
    rw [if_pos rfl]
    by_cases hA : wha = 0
    · rw [if_pos hA, pass2D_of_nil _ _ (box2D_eq_nil hNM), Option.map_some',
        combine1D_of_nonpos _ (by rcases hNM with h | h <;> simp [h]), writeAll_nil]
    · rw [if_neg hA, pass2D_of_nil _ _ (box2D_eq_nil hNM), Option.some_bind,
        pass2D_of_nil _ _ (box2D_eq_nil hNM), Option.map_some',
        combine1D_of_nonpos _ (by rcases hNM with h | h <;> simp [h]), writeAll_nil]
  · rw [if_neg hS, branchB1_empty r whd wha whp hz, Option.some_bind,
      branchB2_empty r whd wha whp hz, Option.some_bind,
      branchB3_empty r whd wha whp hz, Option.some_bind,
      branchB4_empty r whd wha whp hz, Option.some_bind,
      branchB5_empty r whd wha whp hz, Option.some_bind,
      branchB6_empty r whd wha whp hz, Option.map_some']

/-! ### Medians of constant volumes -/

lemma DetectorMedian2D_const (c : ℚ) (whd : ℕ) (N M j i : ℤ) :
    DetectorMedian2D (fun _ => c) whd N M j i = c :=
  medianValSel_const (gather1D_const (fun _ => rfl) _ _ _) (by rw [gather1D_length]; omega)

lemma AngleMedian2D_const (c : ℚ) (wha : ℕ) (N M j i : ℤ) :
    AngleMedian2D (fun _ => c) wha N M j i = c :=
  medianValSel_const (gather1D_const (fun _ => rfl) _ _ _) (by rw [gather1D_length]; omega)

lemma ProjectionMedian3D_const (c : ℚ) (whp : ℕ) (N M S j i k : ℤ) :
    ProjectionMedian3D (fun _ => c) whp N M S j i k = c :=
  medianValSel_const (gather1D_const (fun _ => rfl) _ _ _) (by rw [gather1D_length]; omega)

lemma DetectorMedian3D_const (c : ℚ) (whd : ℕ) (N M S j i k : ℤ) :
    DetectorMedian3D (fun _ => c) whd N M S j i k = c :=
  medianValSel_const (gather1D_const (fun _ => rfl) _ _ _) (by rw [gather1D_length]; omega)

lemma AngleMedian3D_const (c : ℚ) (wha : ℕ) (N M S j i k : ℤ) :
    AngleMedian3D (fun _ => c) wha N M S j i k = c :=
  medianValSel_const (gather1D_const (fun _ => rfl) _ _ _) (by rw [gather1D_length]; omega)

/-! ### Claim theorems -/

/-- C3: every axis-median filter sorts the `2*wh + 1` gathered samples
ascending and writes the value at zero-based sorted index `wh - 1`, not the
true median index `wh`; in particular for the window `{1, 2, 3, 4, 5}` with
`wh = 2` the selected value is `2`. -/
theorem claim_C3 :
    (∀ (l : List ℚ) (wh : ℕ), 1 ≤ wh → l.length = 2 * wh + 1 →
      List.Sorted (fun a b : ℚ => a ≤ b) (sortAsc l) ∧
        medianSelect l wh = some ((sortAsc l).getD (wh - 1) 0)) ∧
    medianSelect [1, 2, 3, 4, 5] 2 = some 2 := by
  constructor
  · intro l wh h1 hlen
    exact ⟨List.sorted_insertionSort _ l, medianSelect_some h1 (by omega)⟩
  · decide

/-- Witness for C3 at the concrete window `[1, 2, 3]` with `wh = 1`. -/
theorem claim_C3_witness :
    List.Sorted (fun a b : ℚ => a ≤ b) (sortAsc [3, 1, 2]) ∧
      medianSelect [3, 1, 2] 1 = some ((sortAsc [3, 1, 2]).getD (1 - 1) 0) :=
  claim_C3.1 [3, 1, 2] 1 (by decide) (by decide)

/-- C4: every out-of-range tap of a window gather is replaced by the source
value at the centre coordinate itself (not clamped, wrapped or reflected);
and for a detector-axis filter with half-size 1 on the row `[10, 1, 1]`
(one angle, three detectors), the value written at the first column is 1. -/
theorem claim_C4 :
    (∀ (src : ℤ → ℚ) (center axisLen : ℤ) (wh t : ℕ), t < 2 * wh + 1 →
      ¬(0 ≤ center + (t : ℤ) - (wh : ℤ) ∧ center + (t : ℤ) - (wh : ℤ) < axisLen) →
      (gather1D src center axisLen wh).get? t = some (src center)) ∧
    RingWeights_det2D rowTen 1 1 3 0 0 = some 1 := by
  constructor
  · intro src center axisLen wh t ht hout
    rw [gather1D_get? ht, if_neg hout]
  · decide

/-- Witness for C4: the left tap (`t = 0`) of a half-size-1 window centred
at column 0 is out of range and yields the centre value. -/
theorem claim_C4_witness :
    (gather1D (fun _ => (5 : ℚ)) 0 3 1).get? 0 = some 5 :=
  claim_C4.1 (fun _ => (5 : ℚ)) 0 3 1 0 (by decide) (by decide)

/-- C8: with half-size `wh ≥ 1` the selected index `wh - 1` is inside the
window of length `2*wh + 1` and the selection succeeds; with `wh = 0` the
computed index is `-1` and the window read is out of bounds (`none`); the
2D dispatch with `angleHalf = 0` and `detectorHalf = 0` invokes such a
filter on every cell, so the whole invocation fails on any nonempty grid. -/
theorem claim_C8 :
    (∀ (l : List ℚ) (wh : ℕ), 1 ≤ wh → l.length = 2 * wh + 1 →
      wh - 1 < 2 * wh + 1 ∧ ∃ v, medianSelect l wh = some v) ∧
    (∀ l : List ℚ, medianSelect l 0 = none) ∧
    (∀ (r w : ℤ → ℚ) (whp : ℕ) (N M : ℤ), 1 ≤ N → 1 ≤ M →
      RingWeights_main r w 0 0 whp N M 1 = none) := by
  refine ⟨?_, medianSelect_zero, ?_⟩
  · intro l wh h1 hlen
    exact ⟨by omega, _, medianSelect_some h1 (by omega)⟩
  · intro r w whp N M hN hM
    exact main2D_det0_none hN hM

/-- Witness for C8 at a window of length 3 and at a concrete 1-by-1 2D
invocation with both relevant half-sizes zero. -/
theorem claim_C8_witness :
    ((1 : ℕ) - 1 < 2 * 1 + 1 ∧ ∃ v, medianSelect [4, 4, 4] 1 = some v) ∧
      RingWeights_main (fun _ => 0) (fun _ => 0) 0 0 1 1 1 1 = none :=
  ⟨claim_C8.1 [4, 4, 4] 1 (by decide) (by decide),
   claim_C8.2.2 (fun _ => 0) (fun _ => 0) 1 1 1 (by decide) (by decide)⟩

/-- C10: in the 3D path with `angleHalf` nonzero, `projectionHalf = 0` and
`detectorHalf = 0`, none of the six combination conditions holds, so the
invocation returns the weights buffer completely unmodified. -/
theorem claim_C10 (r w : ℤ → ℚ) (wha : ℕ) (N M S : ℤ) (hS : 2 ≤ S) (ha1 : 1 ≤ wha) :
    RingWeights_main r w 0 wha 0 N M S = some w :=
  main3D_untouched (by omega) ha1

/-- Witness for C10 at a concrete 2-by-2-by-2 configuration. -/
theorem claim_C10_witness :
    RingWeights_main (fun _ => 7) (fun _ => 3) 0 2 0 2 2 2 = some (fun _ => 3) :=
  claim_C10 (fun _ => 7) (fun _ => 3) 2 2 2 2 (by decide) (by decide)

/-- C2 evaluation: with all three half-sizes zero in the 3D path the first
two branch conditions are both satisfied, each filter computes selection
index `-1`, and the invocation performs an out-of-bounds window read
(modelled by `none`) instead of leaving the weights buffer unmodified. -/
theorem claim_C2 (r w : ℤ → ℚ) (N M S : ℤ) (hS : 2 ≤ S) (hN : 1 ≤ N) (hM : 1 ≤ M) :
    RingWeights_main r w 0 0 0 N M S = none :=
  main3D_allzero_none hS hN hM

/-- Witness for C2 at the concrete failing input: a 1-angle, 1-detector,
2-slice volume with all half-sizes zero. -/
theorem claim_C2_witness :
    RingWeights_main (fun _ => 1) (fun _ => 2) 0 0 0 1 1 2 = none :=
  claim_C2 (fun _ => 1) (fun _ => 2) 1 1 2 (by decide) (by decide) (by decide)

/-- C7 counterexample: with `anglesDim = 0` (an extent that is not
positive) the call is not rejected with any error: it completes normally
and returns the untouched weights buffer.  The C code contains no
dimension validation at all. -/
theorem claim_C7_counterexample :
    RingWeights_main (fun _ => 0) (fun _ => 1) 1 0 0 0 1 1 = some (fun _ => 1) :=
  main_zero_extent (fun _ => 0) (fun _ => 1) 1 0 0 (Or.inl rfl)

/-- C7 amended: the core performs no shape validation and raises no
`InvalidDimension` error; whenever one of the three extents is zero every
loop is empty and the call returns with the weights buffer unmodified. -/
theorem claim_C7 (r w : ℤ → ℚ) (whd wha whp : ℕ) (N M S : ℤ)
    (hz : N = 0 ∨ M = 0 ∨ S = 0) :
    RingWeights_main r w whd wha whp N M S = some w :=
  main_zero_extent r w whd wha whp hz

/-- Witness for C7 at a concrete all-extents-zero call. -/
theorem claim_C7_witness :
    RingWeights_main (fun _ => 2) (fun _ => 3) 2 1 1 0 5 4 = some (fun _ => 3) :=
  claim_C7 (fun _ => 2) (fun _ => 3) 2 1 1 0 5 4 (Or.inl rfl)

/-- C5: in the 2D path (`slices = 1`, detector half-size at least 1), if
`angleHalf = 0` then `weights = residual - DetectorMedian(residual)`
elementwise, and if `angleHalf` is nonzero then
`weights = AngleMedian(residual) - DetectorMedian(residual)` elementwise,
both medians taken of the raw residual. -/
theorem claim_C5 (r w : ℤ → ℚ) (whd wha whp : ℕ) (N M : ℤ) (hd1 : 1 ≤ whd) :
    ∃ wres, RingWeights_main r w whd wha whp N M 1 = some wres ∧
      ∀ i j : ℤ, 0 ≤ i → i < N → 0 ≤ j → j < M →
        wres (i * M + j) =
          if wha = 0 then r (i * M + j) - DetectorMedian2D r whd N M j i
          else AngleMedian2D r wha N M j i - DetectorMedian2D r whd N M j i := by
  by_cases hA : wha = 0
  · subst hA
    refine ⟨_, main2D_angle0 hd1, ?_⟩
    intro i j hi0 hiN hj0 hjM
    obtain ⟨hx0, hxn⟩ := flat_bounds hi0 hiN hj0 hjM
    rw [if_pos rfl, combine1D_lookup _ _ _ hx0 hxn]
    simp only [detPass2_val zeroBuf hi0 hiN hj0 hjM]
  · refine ⟨_, main2D_angleNZ (by omega) hd1, ?_⟩
    intro i j hi0 hiN hj0 hjM
    obtain ⟨hx0, hxn⟩ := flat_bounds hi0 hiN hj0 hjM
    rw [if_neg hA, combine1D_lookup _ _ _ hx0 hxn]
    simp only [angPass2_val zeroBuf hi0 hiN hj0 hjM, detPass2_val w hi0 hiN hj0 hjM]

/-- Witness for C5 on a concrete 1-by-2 sinogram with `angleHalf = 0`. -/
theorem claim_C5_witness :
    ∃ wres, RingWeights_main rowTen (fun _ => 0) 1 0 0 1 2 1 = some wres ∧
      ∀ i j : ℤ, 0 ≤ i → i < 1 → 0 ≤ j → j < 2 →
        wres (i * 2 + j) =
          if (0 : ℕ) = 0 then rowTen (i * 2 + j) - DetectorMedian2D rowTen 1 1 2 j i
          else AngleMedian2D rowTen 0 1 2 j i - DetectorMedian2D rowTen 1 1 2 j i :=
  claim_C5 rowTen (fun _ => 0) 1 0 0 1 2 (by decide)

/-- C6: in the 3D path with all three half-sizes nonzero, the weights are
computed elementwise as `AngleMedian(residual) - 0.5 * (ProjectionMedian(residual)
+ DetectorMedian(residual))`, each median taken of the raw residual along
its own axis. -/
theorem claim_C6 (r w : ℤ → ℚ) (whd wha whp : ℕ) (N M S : ℤ) (hS : 2 ≤ S)
    (hd1 : 1 ≤ whd) (ha1 : 1 ≤ wha) (hp1 : 1 ≤ whp) :
    ∃ wres, RingWeights_main r w whd wha whp N M S = some wres ∧
      ∀ k i j : ℤ, 0 ≤ k → k < S → 0 ≤ i → i < N → 0 ≤ j → j < M →
        wres (M * N * k + i * M + j) =
          AngleMedian3D r wha N M S j i k -
            (1 / 2) * (ProjectionMedian3D r whp N M S j i k +
              DetectorMedian3D r whd N M S j i k) := by
  refine ⟨_, main3D_threeWay (by omega) hd1 ha1 hp1, ?_⟩
  intro k i j hk0 hkS hi0 hiN hj0 hjM
  obtain ⟨hx0, hxn⟩ := flat3_bounds hk0 hkS hi0 hiN hj0 hjM
  rw [combine1D_lookup _ _ _ hx0 hxn]
  simp only [angPass_val zeroBuf hk0 hkS hi0 hiN hj0 hjM,
    projPass_val zeroBuf hk0 hkS hi0 hiN hj0 hjM,
    detPass_val w hk0 hkS hi0 hiN hj0 hjM]

/-- Witness for C6 on a concrete bright-cell volume with one angle, one
detector, two slices and all half-sizes 1. -/
theorem claim_C6_witness :
    ∃ wres, RingWeights_main rowTen (fun _ => 0) 1 1 1 1 1 2 = some wres ∧
      ∀ k i j : ℤ, 0 ≤ k → k < 2 → 0 ≤ i → i < 1 → 0 ≤ j → j < 1 →
        wres (1 * 1 * k + i * 1 + j) =
          AngleMedian3D rowTen 1 1 1 2 j i k -
            (1 / 2) * (ProjectionMedian3D rowTen 1 1 1 2 j i k +
              DetectorMedian3D rowTen 1 1 1 2 j i k) :=
  claim_C6 rowTen (fun _ => 0) 1 1 1 1 1 2 (by decide) (by decide) (by decide) (by decide)

/-- C1 counterexample: take a 3D volume with 1 angle, 3 detectors, 2
slices, residual `10` at flat index 0 and `1` elsewhere, and half-sizes
`angleHalf = 0`, `projectionHalf = 0`, `detectorHalf = 1`.  The claim says
this configuration computes `weights = residual - ProjectionMedian(residual)`,
which is identically `0` here because a projection median with half-size 0
is the centre sample itself; but the code runs the detector filter and
writes `10 - 1 = 9` at the first cell. -/
theorem claim_C1_counterexample :
    ∃ wres, RingWeights_main rowTen zeroBuf 1 0 0 1 3 2 = some wres ∧
      wres (3 * 1 * 0 + 0 * 3 + 0) = 9 ∧
      rowTen (3 * 1 * 0 + 0 * 3 + 0) - ProjectionMedian3D rowTen 0 1 3 2 0 0 0 = 0 := by
  refine ⟨_, main3D_detOnly (by norm_num) le_rfl, ?_, ?_⟩
  · rw [combine1D_lookup _ _ _ (by norm_num) (by norm_num)]
    simp only [@detPass_val rowTen 1 1 3 2 zeroBuf 0 0 0 (le_refl (0 : ℤ)) (by norm_num)
      (le_refl (0 : ℤ)) (by norm_num) (le_refl (0 : ℤ)) (by norm_num)]
    have hd : DetectorMedian3D rowTen 1 1 3 2 0 0 0 = 1 := by decide
    rw [hd]
    norm_num [rowTen]
  · have hp : ProjectionMedian3D rowTen 0 1 3 2 0 0 0 = 10 := by decide
    rw [hp]
    norm_num [rowTen]

/-- C1 amended: the two conditions are swapped relative to the claim.  In
the 3D path, when `angleHalf = 0` and `detectorHalf = 0` (with
`projectionHalf ≥ 1`), `weights = residual - ProjectionMedian(residual)`
elementwise; and when `angleHalf = 0` and `projectionHalf = 0` (with
`detectorHalf ≥ 1`), `weights = residual - DetectorMedian(residual)`
elementwise. -/
theorem claim_C1 (r w : ℤ → ℚ) (whd whp : ℕ) (N M S : ℤ) (hS : 2 ≤ S) :
    (1 ≤ whp → ∃ wres, RingWeights_main r w 0 0 whp N M S = some wres ∧
      ∀ k i j : ℤ, 0 ≤ k → k < S → 0 ≤ i → i < N → 0 ≤ j → j < M →
        wres (M * N * k + i * M + j) =
          r (M * N * k + i * M + j) - ProjectionMedian3D r whp N M S j i k) ∧
    (1 ≤ whd → ∃ wres, RingWeights_main r w whd 0 0 N M S = some wres ∧
      ∀ k i j : ℤ, 0 ≤ k → k < S → 0 ≤ i → i < N → 0 ≤ j → j < M →
        wres (M * N * k + i * M + j) =
          r (M * N * k + i * M + j) - DetectorMedian3D r whd N M S j i k) := by
  constructor
  · intro hp1
    refine ⟨_, main3D_projOnly (by omega) hp1, ?_⟩
    intro k i j hk0 hkS hi0 hiN hj0 hjM
    obtain ⟨hx0, hxn⟩ := flat3_bounds hk0 hkS hi0 hiN hj0 hjM
    rw [combine1D_lookup _ _ _ hx0 hxn]
    simp only [projPass_val zeroBuf hk0 hkS hi0 hiN hj0 hjM]
  · intro hd1
    refine ⟨_, main3D_detOnly (by omega) hd1, ?_⟩
    intro k i j hk0 hkS hi0 hiN hj0 hjM
    obtain ⟨hx0, hxn⟩ := flat3_bounds hk0 hkS hi0 hiN hj0 hjM
    rw [combine1D_lookup _ _ _ hx0 hxn]
    simp only [detPass_val zeroBuf hk0 hkS hi0 hiN hj0 hjM]

/-- Witness for the amended C1 at a concrete 1-by-1-by-2 volume with
`projectionHalf = 1`. -/
theorem claim_C1_witness :
    (1 ≤ 1 → ∃ wres, RingWeights_main rowTen (fun _ => 0) 0 0 1 1 1 2 = some wres ∧
      ∀ k i j : ℤ, 0 ≤ k → k < 2 → 0 ≤ i → i < 1 → 0 ≤ j → j < 1 →
        wres (1 * 1 * k + i * 1 + j) =
          rowTen (1 * 1 * k + i * 1 + j) - ProjectionMedian3D rowTen 1 1 1 2 j i k) ∧
    (1 ≤ 1 → ∃ wres, RingWeights_main rowTen (fun _ => 0) 1 0 0 1 1 2 = some wres ∧
      ∀ k i j : ℤ, 0 ≤ k → k < 2 → 0 ≤ i → i < 1 → 0 ≤ j → j < 1 →
        wres (1 * 1 * k + i * 1 + j) =
          rowTen (1 * 1 * k + i * 1 + j) - DetectorMedian3D rowTen 1 1 1 2 j i k) :=
  claim_C1 rowTen (fun _ => 0) 1 1 1 1 2 (by decide)

/-- C9: on a constant-valued residual, every combination branch produces
all-zero weights at every grid cell: the projection-only, detector-only
(3D and 2D) and angle-then-detector 2D branches have the shape
`x - median(x)`, the two difference branches give `c - c`, and the
three-way branch reduces to `c - 0.5*(c + c) = 0`. -/
theorem claim_C9 (c : ℚ) (w : ℤ → ℚ) (whd wha whp : ℕ) (N M S : ℤ) :
    (2 ≤ S → 1 ≤ whp → ∃ wres,
      RingWeights_main (fun _ => c) w 0 0 whp N M S = some wres ∧
      ∀ k i j : ℤ, 0 ≤ k → k < S → 0 ≤ i → i < N → 0 ≤ j → j < M →
        wres (M * N * k + i * M + j) = 0) ∧
    (2 ≤ S → 1 ≤ whd → ∃ wres,
      RingWeights_main (fun _ => c) w whd 0 0 N M S = some wres ∧
      ∀ k i j : ℤ, 0 ≤ k → k < S → 0 ≤ i → i < N → 0 ≤ j → j < M →
        wres (M * N * k + i * M + j) = 0) ∧
    (2 ≤ S → 1 ≤ whd → 1 ≤ wha → 1 ≤ whp → ∃ wres,
      RingWeights_main (fun _ => c) w whd wha whp N M S = some wres ∧
      ∀ k i j : ℤ, 0 ≤ k → k < S → 0 ≤ i → i < N → 0 ≤ j → j < M →
        wres (M * N * k + i * M + j) = 0) ∧
    (2 ≤ S → 1 ≤ whd → 1 ≤ whp → ∃ wres,
      RingWeights_main (fun _ => c) w whd 0 whp N M S = some wres ∧
      ∀ k i j : ℤ, 0 ≤ k → k < S → 0 ≤ i → i < N → 0 ≤ j → j < M →
        wres (M * N * k + i * M + j) = 0) ∧
    (2 ≤ S → 1 ≤ wha → 1 ≤ whp → ∃ wres,
      RingWeights_main (fun _ => c) w 0 wha whp N M S = some wres ∧
      ∀ k i j : ℤ, 0 ≤ k → k < S → 0 ≤ i → i < N → 0 ≤ j → j < M →
        wres (M * N * k + i * M + j) = 0) ∧
    (2 ≤ S → 1 ≤ wha → 1 ≤ whd → ∃ wres,
      RingWeights_main (fun _ => c) w whd wha 0 N M S = some wres ∧
      ∀ k i j : ℤ, 0 ≤ k → k < S → 0 ≤ i → i < N → 0 ≤ j → j < M →
        wres (M * N * k + i * M + j) = 0) ∧
    (1 ≤ whd → ∃ wres,
      RingWeights_main (fun _ => c) w whd 0 whp N M 1 = some wres ∧
      ∀ i j : ℤ, 0 ≤ i → i < N → 0 ≤ j → j < M → wres (i * M + j) = 0) ∧
    (1 ≤ whd → 1 ≤ wha → ∃ wres,
      RingWeights_main (fun _ => c) w whd wha whp N M 1 = some wres ∧
      ∀ i j : ℤ, 0 ≤ i → i < N → 0 ≤ j → j < M → wres (i * M + j) = 0) := by
  refine ⟨?_, ?_, ?_, ?_, ?_, ?_, ?_, ?_⟩
  · intro hS hp1
    refine ⟨_, main3D_projOnly (by omega) hp1, ?_⟩
    intro k i j hk0 hkS hi0 hiN hj0 hjM
    obtain ⟨hx0, hxn⟩ := flat3_bounds hk0 hkS hi0 hiN hj0 hjM
    rw [combine1D_lookup _ _ _ hx0 hxn]
    simp only [projPass_val zeroBuf hk0 hkS hi0 hiN hj0 hjM, ProjectionMedian3D_const]
    ring
  · intro hS hd1
    refine ⟨_, main3D_detOnly (by omega) hd1, ?_⟩
    intro k i j hk0 hkS hi0 hiN hj0 hjM
    obtain ⟨hx0, hxn⟩ := flat3_bounds hk0 hkS hi0 hiN hj0 hjM
    rw [combine1D_lookup _ _ _ hx0 hxn]
    simp only [detPass_val zeroBuf hk0 hkS hi0 hiN hj0 hjM, DetectorMedian3D_const]
    ring
  · intro hS hd1 ha1 hp1
    refine ⟨_, main3D_threeWay (by omega) hd1 ha1 hp1, ?_⟩
    intro k i j hk0 hkS hi0 hiN hj0 hjM
    obtain ⟨hx0, hxn⟩ := flat3_bounds hk0 hkS hi0 hiN hj0 hjM
    rw [combine1D_lookup _ _ _ hx0 hxn]
    simp only [angPass_val zeroBuf hk0 hkS hi0 hiN hj0 hjM,
      projPass_val zeroBuf hk0 hkS hi0 hiN hj0 hjM,
      detPass_val w hk0 hkS hi0 hiN hj0 hjM,
      AngleMedian3D_const, ProjectionMedian3D_const, DetectorMedian3D_const]
    ring
  · intro hS hd1 hp1
    refine ⟨_, main3D_projDet (by omega) hp1 hd1, ?_⟩
    intro k i j hk0 hkS hi0 hiN hj0 hjM
    obtain ⟨hx0, hxn⟩ := flat3_bounds hk0 hkS hi0 hiN hj0 hjM
    rw [combine1D_lookup _ _ _ hx0 hxn]
    simp only [projPass_val zeroBuf hk0 hkS hi0 hiN hj0 hjM,
      detPass_val zeroBuf hk0 hkS hi0 hiN hj0 hjM,
      ProjectionMedian3D_const, DetectorMedian3D_const]
    ring
  · intro hS ha1 hp1
    refine ⟨_, main3D_angProj (by omega) ha1 hp1, ?_⟩
    intro k i j hk0 hkS hi0 hiN hj0 hjM
    obtain ⟨hx0, hxn⟩ := flat3_bounds hk0 hkS hi0 hiN hj0 hjM
    rw [combine1D_lookup _ _ _ hx0 hxn]
    simp only [angPass_val zeroBuf hk0 hkS hi0 hiN hj0 hjM,
      projPass_val zeroBuf hk0 hkS hi0 hiN hj0 hjM,
      AngleMedian3D_const, ProjectionMedian3D_const]
    ring
  · intro hS ha1 hd1
    refine ⟨_, main3D_angDet (by omega) ha1 hd1, ?_⟩
    intro k i j hk0 hkS hi0 hiN hj0 hjM
    obtain ⟨hx0, hxn⟩ := flat3_bounds hk0 hkS hi0 hiN hj0 hjM
    rw [combine1D_lookup _ _ _ hx0 hxn]
    simp only [angPass_val zeroBuf hk0 hkS hi0 hiN hj0 hjM,
      detPass_val zeroBuf hk0 hkS hi0 hiN hj0 hjM,
      AngleMedian3D_const, DetectorMedian3D_const]
    ring
  · intro hd1
    refine ⟨_, main2D_angle0 hd1, ?_⟩
    intro i j hi0 hiN hj0 hjM
    obtain ⟨hx0, hxn⟩ := flat_bounds hi0 hiN hj0 hjM
    rw [combine1D_lookup _ _ _ hx0 hxn]
    simp only [detPass2_val zeroBuf hi0 hiN hj0 hjM, DetectorMedian2D_const]
    ring
  · intro hd1 ha1
    refine ⟨_, main2D_angleNZ ha1 hd1, ?_⟩
    intro i j hi0 hiN hj0 hjM
    obtain ⟨hx0, hxn⟩ := flat_bounds hi0 hiN hj0 hjM
    rw [combine1D_lookup _ _ _ hx0 hxn]
    simp only [angPass2_val zeroBuf hi0 hiN hj0 hjM, detPass2_val w hi0 hiN hj0 hjM,
      AngleMedian2D_const, DetectorMedian2D_const]
    ring

/-- Witness for C9: the three-way branch on a constant volume of value 7
with all half-sizes 1 on a 1-by-1-by-2 grid. -/
theorem claim_C9_witness :
    2 ≤ (2 : ℤ) ∧ ∃ wres,
      RingWeights_main (fun _ => (7 : ℚ)) (fun _ => 0) 1 1 1 1 1 2 = some wres ∧
      ∀ k i j : ℤ, 0 ≤ k → k < 2 → 0 ≤ i → i < 1 → 0 ≤ j → j < 1 →
        wres (1 * 1 * k + i * 1 + j) = 0 :=
  ⟨by decide,
   (claim_C9 7 (fun _ => 0) 1 1 1 1 1 2).2.2.1 (by decide) (by decide) (by decide) (by decide)⟩
